import Mathlib

/-!
Verification development for the payment integration of ajnabi-connect-vibes5.

The development shallowly embeds two components:

* the Supabase edge function (Deno.serve handler) that creates Razorpay
  orders and verifies payment signatures, modelled by `EdgeFn.serve`;
* the client-side class PaymentService (paymentService.ts), modelled by
  the definitions in namespace `PaymentService`.

External effects (HTTP fetches to the provider, the checkout widget, the
clock) are passed in as explicit environment values; every function is
total and computable.  HMAC-SHA256 is modelled as an abstract parameter
`hmac : String → String → String` (secret, message ↦ hex digest): the
handler only ever compares its output for string equality, so every
property below is proved uniformly in the choice of `hmac`.
-/

namespace EdgeFn

/-- JSON body shape of every response produced by the edge function.
Absent JSON keys are `none`. -/
structure RespBody where
  success : Bool
  verified : Option Bool := none
  error : Option String := none
  orderId : Option String := none
  amount : Option ℚ := none
  currency : Option String := none
  receipt : Option String := none
  paymentId : Option String := none
  deriving Repr, DecidableEq

/-- An HTTP response: status code plus optional JSON body
(the CORS preflight response has no body). -/
structure HttpResponse where
  status : Nat
  body : Option RespBody
  deriving Repr, DecidableEq

/-- Instrumentation of one request handling: which external effects the
handler actually performed. -/
structure ServerTrace where
  orderApiCalled : Bool := false
  paymentLookupCalled : Bool := false
  hmacComputed : Bool := false
  requestedPaise : Option Int := none
  deriving Repr, DecidableEq

/-- Outcome of the optional secondary GET /v1/payments/id lookup:
the fetch rejected, the response was not ok, or it succeeded and
reported a settlement status. -/
inductive LookupOutcome where
  | threw
  | respNotOk
  | ok (status : String)
  deriving Repr, DecidableEq

/-- The fields of the provider's order-creation response that the
handler reads. -/
structure ProviderOrder where
  id : String
  amount : ℚ
  currency : String
  receipt : String
  deriving Repr, DecidableEq

/-- Outcome of the POST https://api.razorpay.com/v1/orders fetch. -/
inductive ProviderOrderOutcome where
  | threw
  | respNotOk
  | ok (ord : ProviderOrder)
  deriving Repr, DecidableEq

/-- A parsed incoming request, by route.  Body fields are `Option`s:
`none` models an absent JSON key. -/
inductive Request where
  | options
  | createOrder (amount : Option ℚ) (currency : Option String) (receipt : Option String)
  | verifyPayment (paymentId : Option String) (orderId : Option String) (signature : Option String)
  | other
  deriving Repr, DecidableEq

def configErrorMsg : String := "Payment service configuration error"
def invalidAmountMsg : String := "Invalid amount. Must be between ₹1 and ₹1,00,000"
def orderFailMsg : String := "Failed to create payment order"
def missingParamsMsg : String := "Missing payment verification parameters"
def notCompletedMsg : String := "Payment not completed successfully"
def invalidSigMsg : String := "Invalid payment signature"
def endpointNotFoundMsg : String := "Endpoint not found"

/-- JavaScript truthiness test used on `Deno.env.get` results and on
string body fields: `undefined` and the empty string are falsy. -/
def strFalsy : Option String → Bool
  | none => true
  | some s => s = ""

/-- Error-only response body. -/
def mkErr (e : String) : RespBody := { success := false, error := some e }

/-- The 200 response returned when a signature verifies. -/
def verifiedResp (p o : String) : HttpResponse :=
  { status := 200,
    body := some { success := true, verified := some true,
                   paymentId := some p, orderId := some o } }

/-- The create-order branch after the credential check
(part_002 of the source, create-order route). -/
def createOrderBranch (orderOut : ProviderOrderOutcome)
    (amount : Option ℚ) : HttpResponse × ServerTrace :=
  match amount with
  | none => ({ status := 400, body := some (mkErr invalidAmountMsg) }, {})
  | some a =>
    if a ≤ 0 ∨ a > 100000 then
      ({ status := 400, body := some (mkErr invalidAmountMsg) }, {})
    else
      let paise : Int := round (a * 100)
      match orderOut with
      | .threw =>
          ({ status := 500, body := some (mkErr orderFailMsg) },
           { orderApiCalled := true, requestedPaise := some paise })
      | .respNotOk =>
          ({ status := 500, body := some (mkErr orderFailMsg) },
           { orderApiCalled := true, requestedPaise := some paise })
      | .ok ord =>
          ({ status := 200,
             body := some { success := true, orderId := some ord.id,
                            amount := some (ord.amount / 100),
                            currency := some ord.currency,
                            receipt := some ord.receipt } },
           { orderApiCalled := true, requestedPaise := some paise })

/-- The verify-payment branch after the credential check
(part_002 of the source, verify-payment route). -/
def verifyPaymentBranch (keySecret : String) (hmac : String → String → String)
    (lookupOut : LookupOutcome)
    (paymentId orderId signature : Option String) : HttpResponse × ServerTrace :=
  if strFalsy paymentId ∨ strFalsy orderId ∨ strFalsy signature then
    ({ status := 400, body := some (mkErr missingParamsMsg) }, {})
  else
    let p := paymentId.getD ""
    let o := orderId.getD ""
    let s := signature.getD ""
    let generated := hmac keySecret (o ++ "|" ++ p)
    if generated = s then
      match lookupOut with
      | .ok st =>
          if st ≠ "captured" ∧ st ≠ "authorized" then
            ({ status := 400, body := some (mkErr notCompletedMsg) },
             { paymentLookupCalled := true, hmacComputed := true })
          else
            (verifiedResp p o, { paymentLookupCalled := true, hmacComputed := true })
      | .respNotOk =>
          (verifiedResp p o, { paymentLookupCalled := true, hmacComputed := true })
      | .threw =>
          (verifiedResp p o, { paymentLookupCalled := true, hmacComputed := true })
    else
      ({ status := 400, body := some (mkErr invalidSigMsg) }, { hmacComputed := true })

/-- The Deno.serve handler of the edge function.  CORS preflight is
answered first; then credentials are read from the environment and
checked; then the request is dispatched by route. -/
def serve (keyId keySecret : Option String) (hmac : String → String → String)
    (orderOut : ProviderOrderOutcome) (lookupOut : LookupOutcome)
    (req : Request) : HttpResponse × ServerTrace :=
  match req with
  | .options => ({ status := 200, body := none }, {})
  | .createOrder a _ _ =>
      if strFalsy keyId ∨ strFalsy keySecret then
        ({ status := 500, body := some (mkErr configErrorMsg) }, {})
      else
        createOrderBranch orderOut a
  | .verifyPayment p o s =>
      if strFalsy keyId ∨ strFalsy keySecret then
        ({ status := 500, body := some (mkErr configErrorMsg) }, {})
      else
        verifyPaymentBranch (keySecret.getD "") hmac lookupOut p o s
  | .other =>
      if strFalsy keyId ∨ strFalsy keySecret then
        ({ status := 500, body := some (mkErr configErrorMsg) }, {})
      else
        ({ status := 404, body := some (mkErr endpointNotFoundMsg) }, {})

/-- The `verified` field of a response, when a body is present. -/
def respVerified (h : HttpResponse) : Option Bool :=
  match h.body with
  | none => none
  | some b => b.verified

/-- The `error` field of a response, when a body is present. -/
def respError (h : HttpResponse) : Option String :=
  match h.body with
  | none => none
  | some b => b.error

/-- Does the secondary settlement lookup force a downgrade?  Only a
successful lookup reporting a status other than captured/authorized. -/
def lookupDowngrades : LookupOutcome → Bool
  | .ok st => ¬(st = "captured" ∨ st = "authorized")
  | _ => false

end EdgeFn

namespace PaymentService

/-- The client-visible PaymentResult interface (paymentService.ts).
Note: it carries no field tagging demo/simulated results. -/
structure PaymentResult where
  success : Bool
  paymentId : Option String := none
  orderId : Option String := none
  signature : Option String := none
  error : Option String := none
  deriving Repr, DecidableEq

/-- The PaymentOptions fields that influence control flow. -/
structure PaymentOptions where
  amount : ℚ
  description : String := ""
  deriving Repr, DecidableEq

/-- Return type of the client-side createOrder. -/
structure ClientOrder where
  orderId : String
  amount : ℚ
  receipt : String
  deriving Repr, DecidableEq

/-- JSON body of a create-order backend response as the client reads it. -/
structure CreateOrderRespBody where
  success : Bool
  orderId : String := ""
  receipt : String := ""
  amount : ℚ := 0
  error : Option String := none
  deriving Repr, DecidableEq

/-- Outcome of the client's POST create-order fetch: the fetch rejected
(with the rejection message), the response was not ok (with the parsed
error field, if any), or it returned a JSON body. -/
inductive CreateOrderNet where
  | threw (msg : String)
  | respNotOk (errField : Option String)
  | ok (body : CreateOrderRespBody)
  deriving Repr, DecidableEq

/-- JSON body of a verify-payment backend response as the client reads
it: `verified` is read with JS truthiness, so an absent field is false. -/
structure VerifyRespBody where
  success : Bool
  verified : Bool
  error : Option String := none
  deriving Repr, DecidableEq

/-- Outcome of the client's POST verify-payment fetch. -/
inductive VerifyNet where
  | threw
  | respNotOk (message : Option String)
  | ok (body : VerifyRespBody)
  deriving Repr, DecidableEq

/-- What the checkout widget does once opened: the user dismisses the
modal, the widget fires payment.failed, the handler receives a triple,
or the Razorpay constructor itself throws. -/
inductive CheckoutOutcome where
  | constructorThrew
  | dismissed
  | failed (description : Option String)
  | handlerSuccess (paymentId orderId signature : String)
  deriving Repr, DecidableEq

/-- External world as seen by one initiatePayment execution. -/
structure ClientEnv where
  now : Nat
  gatewayLoads : Bool
  windowRazorpay : Bool
  createOrderNet : CreateOrderNet
  checkout : CheckoutOutcome
  verifyNet : VerifyNet
  deriving Repr, DecidableEq

/-- Instrumentation of one client execution: which network requests were
issued and what amount, if any, was handed to the checkout widget. -/
structure ClientTrace where
  gatewayLoadRequested : Bool := false
  createOrderFetched : Bool := false
  checkoutAmount : Option ℚ := none
  verifyFetched : Bool := false
  deriving Repr, DecidableEq

/-- JavaScript String.prototype.startsWith, on the character
sequence of the strings. -/
def jsStartsWith (s pre : String) : Bool :=
  pre.data.isPrefixOf s.data

/-- isValidPaymentFormat: the demo-fallback format check. -/
def isValidPaymentFormat (paymentId orderId signature : String) : Bool :=
  (jsStartsWith paymentId "pay_" || jsStartsWith paymentId "demo_pay_") &&
  (jsStartsWith orderId "order_" || jsStartsWith orderId "demo_order_") &&
  decide (signature.length > 10)

/-- simulatePayment: the demo fallback, auto-approving with synthesized
ids derived from the clock.  It always reports success := true. -/
def simulatePayment (now : Nat) : PaymentResult :=
  { success := true,
    paymentId := some ("demo_pay_" ++ toString now),
    orderId := some ("demo_order_" ++ toString now),
    signature := some ("demo_signature_" ++ toString now) }

/-- verifyPaymentWithBackend.  A rejected fetch and a non-ok response
both land in the catch block, which falls back to the client-side
format check. -/
def verifyPaymentWithBackend (net : VerifyNet)
    (paymentId orderId signature : String) : PaymentResult :=
  if paymentId = "" ∨ orderId = "" ∨ signature = "" then
    { success := false, error := some "Missing payment parameters" }
  else
    match net with
    | .ok body =>
        { success := body.success && body.verified,
          error := if body.verified then none
                   else some (body.error.getD "Payment verification failed") }
    | _ =>
        let ok := isValidPaymentFormat paymentId orderId signature
        { success := ok,
          error := if ok then none else some "Payment verification failed" }

/-- Client-side createOrder.  Validates the amount, calls the backend,
and on success returns the input amount scaled to paise itself — the
backend's returned amount field is never read.  The Bool records
whether the fetch was issued.  Errors are the rethrown messages. -/
def createOrder (net : CreateOrderNet) (amount : ℚ) :
    Except String ClientOrder × Bool :=
  if amount ≤ 0 ∨ amount > 100000 then
    (.error "Failed to create order: Invalid payment amount", false)
  else
    match net with
    | .threw msg => (.error ("Failed to create order: " ++ msg), true)
    | .respNotOk errField =>
        (.error ("Failed to create order: " ++
                 errField.getD "HTTP error: Failed to create order"), true)
    | .ok body =>
        if body.success then
          (.ok { orderId := body.orderId, amount := amount * 100,
                 receipt := body.receipt }, true)
        else
          (.error ("Failed to create order: " ++
                   body.error.getD "Failed to create order"), true)

/-- The handler + modal part of initiatePayment, entered once an order
exists and the widget is constructed. -/
def checkoutPhase (env : ClientEnv) (order : ClientOrder) :
    PaymentResult × ClientTrace :=
  let base : ClientTrace :=
    { gatewayLoadRequested := true, createOrderFetched := true,
      checkoutAmount := some order.amount }
  match env.checkout with
  | .constructorThrew =>
      (simulatePayment env.now,
       { gatewayLoadRequested := true, createOrderFetched := true })
  | .dismissed =>
      ({ success := false, error := some "Payment cancelled by user" }, base)
  | .failed description =>
      ({ success := false, error := some (description.getD "Payment failed") }, base)
  | .handlerSuccess p o s =>
      let attempted : Bool := ¬(p = "" ∨ o = "" ∨ s = "")
      let v := verifyPaymentWithBackend env.verifyNet p o s
      let tr := { base with verifyFetched := attempted }
      if v.success then
        ({ success := true, paymentId := some p, orderId := some o,
           signature := some s }, tr)
      else
        ({ success := false,
           error := some (v.error.getD "Payment verification failed") }, tr)

/-- initiatePayment.  The amount check rejects only falsy or
non-positive amounts; any exception thrown inside the try block
(including that validation error and createOrder failures) is caught
and answered with the demo fallback. -/
def initiatePayment (env : ClientEnv) (options : PaymentOptions) :
    PaymentResult × ClientTrace :=
  if options.amount ≤ 0 then
    (simulatePayment env.now, {})
  else if ¬env.gatewayLoads then
    (simulatePayment env.now, { gatewayLoadRequested := true })
  else if ¬env.windowRazorpay then
    (simulatePayment env.now, { gatewayLoadRequested := true })
  else
    match createOrder env.createOrderNet options.amount with
    | (.error _, fetched) =>
        (simulatePayment env.now,
         { gatewayLoadRequested := true, createOrderFetched := fetched })
    | (.ok order, _) => checkoutPhase env order

/-- Catalog entry for a coin package (config/payments.ts). -/
structure CoinPackage where
  coins : Nat
  price : ℚ
  originalPrice : ℚ
  id : String
  deriving Repr, DecidableEq

/-- COIN_PACKAGES, as a lookup by key (runtime callers can pass any
string, guarded by the falsiness check in buyCoinPackage). -/
def COIN_PACKAGES : String → Option CoinPackage
  | "small" => some { coins := 30, price := 29, originalPrice := 49, id := "coins_30" }
  | "medium" => some { coins := 100, price := 99, originalPrice := 149, id := "coins_100" }
  | "large" => some { coins := 350, price := 299, originalPrice := 499, id := "coins_350" }
  | _ => none

/-- Catalog entry for a premium plan (config/payments.ts). -/
structure PremiumPlan where
  duration : String
  price : ℚ
  originalPrice : ℚ
  id : String
  deriving Repr, DecidableEq

/-- PREMIUM_PLANS, as a lookup by key. -/
def PREMIUM_PLANS : String → Option PremiumPlan
  | "day" => some { duration := "1 Day", price := 29, originalPrice := 49, id := "premium_1d" }
  | "week" => some { duration := "1 Week", price := 199, originalPrice := 299, id := "premium_7d" }
  | "month" => some { duration := "1 Month", price := 299, originalPrice := 499, id := "premium_30d" }
  | "lifetime" => some { duration := "Lifetime", price := 899, originalPrice := 1999, id := "premium_lifetime" }
  | _ => none

/-- UNLIMITED_CALLS_PLAN (config/payments.ts). -/
def UNLIMITED_CALLS_PLAN : PremiumPlan :=
  { duration := "24 hours", price := 19, originalPrice := 19, id := "unlimited_calls_24h" }

/-- buyCoinPackage: catalog lookup, then initiatePayment. -/
def buyCoinPackage (env : ClientEnv) (packageType : String) :
    PaymentResult × ClientTrace :=
  match COIN_PACKAGES packageType with
  | none => ({ success := false, error := some "Invalid coin package selected" }, {})
  | some p =>
      initiatePayment env
        { amount := p.price,
          description := toString p.coins ++ " Coins Package - AjnabiCam" }

/-- subscribeToPremium: catalog lookup, then initiatePayment. -/
def subscribeToPremium (env : ClientEnv) (planType : String) :
    PaymentResult × ClientTrace :=
  match PREMIUM_PLANS planType with
  | none => ({ success := false, error := some "Invalid premium plan selected" }, {})
  | some plan =>
      initiatePayment env
        { amount := plan.price,
          description := "Premium Subscription (" ++ plan.duration ++ ") - AjnabiCam" }

/-- subscribeToUnlimitedCalls: fixed plan, then initiatePayment. -/
def subscribeToUnlimitedCalls (env : ClientEnv) : PaymentResult × ClientTrace :=
  initiatePayment env
    { amount := UNLIMITED_CALLS_PLAN.price,
      description := "Unlimited Voice Calls (" ++ UNLIMITED_CALLS_PLAN.duration ++ ") - AjnabiCam" }

end PaymentService

namespace Loader

/-!
State machine for PaymentService.loadRazorpay.  In the browser the
prefix of loadRazorpay up to returning a promise runs synchronously
(the promise executor runs inside the `new Promise` expression and
contains no await), so each call is modelled as one atomic step;
script onload/onerror/timeout events are separate steps.  Promises are
identified by a counter; `resolutions` records each settled promise.
-/

/-- Shared mutable state of the loader: the class fields
isRazorpayLoaded and loadingPromise, the number of injected script
elements currently in the document, the window.Razorpay global, a
fresh-promise counter, and the settled promises. -/
structure LoaderState where
  isRazorpayLoaded : Bool
  loadingPromise : Option Nat
  scriptCount : Nat
  windowRazorpay : Bool
  nextPromiseId : Nat
  resolutions : List (Nat × Bool)
  deriving Repr, DecidableEq

/-- What one loadRazorpay call returns to its caller: `true`
immediately, or the promise it will await. -/
inductive CallOutcome where
  | immediateTrue
  | awaits (id : Nat)
  deriving Repr, DecidableEq

/-- One loadRazorpay call (its synchronous prefix).  Mirrors the
source: cached-loaded fast path, in-flight promise reuse, then a new
promise whose executor either resolves immediately off window.Razorpay
or injects exactly one script element. -/
def loadCall (s : LoaderState) : LoaderState × CallOutcome :=
  if s.isRazorpayLoaded then
    (s, .immediateTrue)
  else
    match s.loadingPromise with
    | some id => (s, .awaits id)
    | none =>
        if s.windowRazorpay then
          ({ s with isRazorpayLoaded := true,
                    loadingPromise := some s.nextPromiseId,
                    nextPromiseId := s.nextPromiseId + 1,
                    resolutions := (s.nextPromiseId, true) :: s.resolutions },
           .awaits s.nextPromiseId)
        else
          ({ s with loadingPromise := some s.nextPromiseId,
                    nextPromiseId := s.nextPromiseId + 1,
                    scriptCount := s.scriptCount + 1 },
           .awaits s.nextPromiseId)

/-- script.onload: sets the loaded flag and resolves the in-flight
promise with true.  The in-flight handle is not cleared (the cached
flag short-circuits later calls). -/
def onloadEvent (s : LoaderState) : LoaderState :=
  match s.loadingPromise with
  | none => s
  | some id =>
      { s with isRazorpayLoaded := true,
               resolutions := (id, true) :: s.resolutions }

/-- script.onerror (and equally the 10 s timeout): clears the loaded
flag and the in-flight handle, removes the script element, and
resolves the in-flight promise with false. -/
def onerrorEvent (s : LoaderState) : LoaderState :=
  match s.loadingPromise with
  | none => s
  | some id =>
      { s with isRazorpayLoaded := false,
               loadingPromise := none,
               scriptCount := s.scriptCount - 1,
               resolutions := (id, false) :: s.resolutions }

/-- n successive loadRazorpay calls with no intervening events,
collecting each caller's outcome. -/
def loadCallsN : LoaderState → Nat → LoaderState × List CallOutcome
  | s, 0 => (s, [])
  | s, n + 1 =>
      let (s1, o) := loadCall s
      let (s2, os) := loadCallsN s1 n
      (s2, o :: os)

end Loader

/-- A concrete stand-in digest function, used only to instantiate the
abstract HMAC parameter of `EdgeFn.serve` in concrete evaluations
(the handler only compares digests for string equality). -/
def demoHmac (secret message : String) : String :=
  "hex_" ++ secret ++ "_" ++ message

/-- A concrete client environment: gateway script loads, but the
create-order fetch rejects. -/
def demoEnv : PaymentService.ClientEnv :=
  { now := 7, gatewayLoads := true, windowRazorpay := true,
    createOrderNet := .threw "network down",
    checkout := .dismissed, verifyNet := .threw }

/-- A concrete client environment in which the gateway script fails to
load. -/
def gatewayDownEnv : PaymentService.ClientEnv :=
  { now := 42, gatewayLoads := false, windowRazorpay := false,
    createOrderNet := .threw "network down",
    checkout := .dismissed, verifyNet := .threw }

/-- A concrete client environment whose create-order fetch succeeds,
the backend body reporting the given amount. -/
def okOrderEnv (amt : ℚ) : PaymentService.ClientEnv :=
  { now := 7, gatewayLoads := true, windowRazorpay := true,
    createOrderNet := .ok { success := true, orderId := "order_abc",
                            receipt := "r1", amount := amt },
    checkout := .dismissed, verifyNet := .threw }

/-! ## Helper lemmas -/

theorem strFalsy_some_of_ne {s : String} (h : s ≠ "") :
    EdgeFn.strFalsy (some s) = false := by
  simp [EdgeFn.strFalsy, h]

theorem serve_verify_eq (keyId keySecret : String)
    (hmac : String → String → String)
    (orderOut : EdgeFn.ProviderOrderOutcome) (lookupOut : EdgeFn.LookupOutcome)
    (p? o? s? : Option String) (hk : keyId ≠ "") (hsec : keySecret ≠ "") :
    EdgeFn.serve (some keyId) (some keySecret) hmac orderOut lookupOut
        (.verifyPayment p? o? s?) =
      EdgeFn.verifyPaymentBranch keySecret hmac lookupOut p? o? s? := by
  simp [EdgeFn.serve, EdgeFn.strFalsy, hk, hsec]

theorem verifyPaymentBranch_eq (keySecret : String)
    (hmac : String → String → String) (lookupOut : EdgeFn.LookupOutcome)
    (p o s : String) (hp : p ≠ "") (ho : o ≠ "") (hs : s ≠ "") :
    EdgeFn.verifyPaymentBranch keySecret hmac lookupOut
        (some p) (some o) (some s) =
      if hmac keySecret (o ++ "|" ++ p) = s then
        if EdgeFn.lookupDowngrades lookupOut = true then
          ({ status := 400, body := some (EdgeFn.mkErr EdgeFn.notCompletedMsg) },
           { paymentLookupCalled := true, hmacComputed := true })
        else
          (EdgeFn.verifiedResp p o,
           { paymentLookupCalled := true, hmacComputed := true })
      else
        ({ status := 400, body := some (EdgeFn.mkErr EdgeFn.invalidSigMsg) },
         { hmacComputed := true }) := by
  unfold EdgeFn.verifyPaymentBranch
  rw [strFalsy_some_of_ne hp, strFalsy_some_of_ne ho, strFalsy_some_of_ne hs]
  simp only [Bool.false_eq_true, or_self, if_false, Option.getD_some]
  by_cases hsig : hmac keySecret (o ++ "|" ++ p) = s
  · simp only [hsig, if_true, if_pos rfl]
    cases lookupOut with
    | threw => simp [EdgeFn.lookupDowngrades]
    | respNotOk => simp [EdgeFn.lookupDowngrades]
    | ok st =>
        by_cases h1 : st = "captured"
        · simp [EdgeFn.lookupDowngrades, h1]
        · by_cases h2 : st = "authorized"
          · simp [EdgeFn.lookupDowngrades, h1, h2]
          · simp [EdgeFn.lookupDowngrades, h1, h2]
  · simp [hsig]

/-! ## Claim theorems -/

/-- C5: for every verify-payment request with at least one of the three
fields absent (and configured credentials), the edge function answers
HTTP 400 with body success:false / error:"Missing payment verification
parameters", without computing a signature and without any provider
call. -/
theorem C5_verify_missing_field (keyId keySecret : String)
    (hmac : String → String → String)
    (orderOut : EdgeFn.ProviderOrderOutcome) (lookupOut : EdgeFn.LookupOutcome)
    (p? o? s? : Option String)
    (hk : keyId ≠ "") (hsec : keySecret ≠ "")
    (hmiss : p? = none ∨ o? = none ∨ s? = none) :
    (EdgeFn.serve (some keyId) (some keySecret) hmac orderOut lookupOut
        (.verifyPayment p? o? s?)).1.status = 400 ∧
    (EdgeFn.serve (some keyId) (some keySecret) hmac orderOut lookupOut
        (.verifyPayment p? o? s?)).1.body =
      some (EdgeFn.mkErr EdgeFn.missingParamsMsg) ∧
    (EdgeFn.serve (some keyId) (some keySecret) hmac orderOut lookupOut
        (.verifyPayment p? o? s?)).2.hmacComputed = false ∧
    (EdgeFn.serve (some keyId) (some keySecret) hmac orderOut lookupOut
        (.verifyPayment p? o? s?)).2.paymentLookupCalled = false ∧
    (EdgeFn.serve (some keyId) (some keySecret) hmac orderOut lookupOut
        (.verifyPayment p? o? s?)).2.orderApiCalled = false := by
  rw [serve_verify_eq keyId keySecret hmac orderOut lookupOut p? o? s? hk hsec]
  unfold EdgeFn.verifyPaymentBranch
  rcases hmiss with h | h | h <;> subst h <;>
    simp [EdgeFn.strFalsy]

/-- C5 witness: concrete instance with the signature field absent. -/
theorem C5_verify_missing_field_witness :
    (EdgeFn.serve (some "rzp_key") (some "sec") demoHmac .threw .threw
        (.verifyPayment (some "pay_1") (some "order_abc") none)).1.status = 400 :=
  (C5_verify_missing_field "rzp_key" "sec" demoHmac .threw .threw
    (some "pay_1") (some "order_abc") none
    (by decide) (by decide) (Or.inr (Or.inr rfl))).1

/-- C7: if either server credential is absent from the environment,
every non-preflight request is answered HTTP 500 with the
configuration error — a message distinct from every payment-specific
error of the handler — and no provider call is attempted. -/
theorem C7_missing_credentials (keyId keySecret : Option String)
    (hmac : String → String → String)
    (orderOut : EdgeFn.ProviderOrderOutcome) (lookupOut : EdgeFn.LookupOutcome)
    (req : EdgeFn.Request)
    (hmiss : keyId = none ∨ keySecret = none)
    (hreq : req ≠ .options) :
    (EdgeFn.serve keyId keySecret hmac orderOut lookupOut req).1.status = 500 ∧
    (EdgeFn.serve keyId keySecret hmac orderOut lookupOut req).1.body =
      some (EdgeFn.mkErr EdgeFn.configErrorMsg) ∧
    (EdgeFn.serve keyId keySecret hmac orderOut lookupOut req).2.orderApiCalled = false ∧
    (EdgeFn.serve keyId keySecret hmac orderOut lookupOut req).2.paymentLookupCalled = false ∧
    EdgeFn.configErrorMsg ≠ EdgeFn.invalidAmountMsg ∧
    EdgeFn.configErrorMsg ≠ EdgeFn.orderFailMsg ∧
    EdgeFn.configErrorMsg ≠ EdgeFn.missingParamsMsg ∧
    EdgeFn.configErrorMsg ≠ EdgeFn.notCompletedMsg ∧
    EdgeFn.configErrorMsg ≠ EdgeFn.invalidSigMsg := by
  have hfalsy : (EdgeFn.strFalsy keyId ∨ EdgeFn.strFalsy keySecret) := by
    rcases hmiss with h | h <;> subst h
    · exact Or.inl rfl
    · exact Or.inr rfl
  cases req with
  | options => exact absurd rfl hreq
  | createOrder a c r =>
      refine ⟨?_, ?_, ?_, ?_, by decide, by decide, by decide, by decide, by decide⟩ <;>
        simp [EdgeFn.serve, hfalsy]
  | verifyPayment p o s =>
      refine ⟨?_, ?_, ?_, ?_, by decide, by decide, by decide, by decide, by decide⟩ <;>
        simp [EdgeFn.serve, hfalsy]
  | other =>
      refine ⟨?_, ?_, ?_, ?_, by decide, by decide, by decide, by decide, by decide⟩ <;>
        simp [EdgeFn.serve, hfalsy]

/-- C7 witness: concrete request with the secret key unset. -/
theorem C7_missing_credentials_witness :
    (EdgeFn.serve (some "rzp_key") none demoHmac .threw .threw
        (.createOrder (some 299) (some "INR") none)).1.status = 500 :=
  (C7_missing_credentials (some "rzp_key") none demoHmac .threw .threw
    (.createOrder (some 299) (some "INR") none)
    (Or.inr rfl) (by decide)).1

/-- C9: with a valid signature, a thrown error (or non-ok response) on
the secondary settlement lookup does not downgrade the outcome — the
handler still answers verified:true — and the outcome is downgraded
exactly when the lookup succeeds with a status that is neither
captured nor authorized. -/
theorem C9_secondary_lookup (keyId keySecret : String)
    (hmac : String → String → String)
    (orderOut : EdgeFn.ProviderOrderOutcome) (p o : String)
    (hk : keyId ≠ "") (hsec : keySecret ≠ "")
    (hp : p ≠ "") (ho : o ≠ "")
    (hsig : hmac keySecret (o ++ "|" ++ p) ≠ "") :
    EdgeFn.respVerified
      (EdgeFn.serve (some keyId) (some keySecret) hmac orderOut .threw
        (.verifyPayment (some p) (some o)
          (some (hmac keySecret (o ++ "|" ++ p))))).1 = some true ∧
    (EdgeFn.serve (some keyId) (some keySecret) hmac orderOut .threw
        (.verifyPayment (some p) (some o)
          (some (hmac keySecret (o ++ "|" ++ p))))).1.status = 200 ∧
    (∀ lookupOut : EdgeFn.LookupOutcome,
      EdgeFn.respVerified
        (EdgeFn.serve (some keyId) (some keySecret) hmac orderOut lookupOut
          (.verifyPayment (some p) (some o)
            (some (hmac keySecret (o ++ "|" ++ p))))).1 = some true ↔
      EdgeFn.lookupDowngrades lookupOut = false) := by
  have key : ∀ lookupOut : EdgeFn.LookupOutcome,
      EdgeFn.serve (some keyId) (some keySecret) hmac orderOut lookupOut
          (.verifyPayment (some p) (some o)
            (some (hmac keySecret (o ++ "|" ++ p)))) =
        if EdgeFn.lookupDowngrades lookupOut = true then
          ({ status := 400, body := some (EdgeFn.mkErr EdgeFn.notCompletedMsg) },
           { paymentLookupCalled := true, hmacComputed := true })
        else
          (EdgeFn.verifiedResp p o,
           { paymentLookupCalled := true, hmacComputed := true }) := by
    intro lookupOut
    rw [serve_verify_eq keyId keySecret hmac orderOut lookupOut _ _ _ hk hsec,
        verifyPaymentBranch_eq keySecret hmac lookupOut p o _ hp ho hsig]
    simp
  refine ⟨?_, ?_, ?_⟩
  · rw [key EdgeFn.LookupOutcome.threw]
    simp [EdgeFn.lookupDowngrades, EdgeFn.respVerified, EdgeFn.verifiedResp]
  · rw [key EdgeFn.LookupOutcome.threw]
    simp [EdgeFn.lookupDowngrades, EdgeFn.verifiedResp]
  · intro lookupOut
    rw [key lookupOut]
    by_cases hdown : EdgeFn.lookupDowngrades lookupOut = true
    · simp [hdown, EdgeFn.respVerified, EdgeFn.mkErr]
    · simp [hdown, EdgeFn.respVerified, EdgeFn.verifiedResp,
            Bool.not_eq_true] at hdown ⊢

/-- C9 witness: concrete valid-signature request whose secondary lookup
throws, still answered verified:true. -/
theorem C9_secondary_lookup_witness :
    EdgeFn.respVerified
      (EdgeFn.serve (some "rzp_key") (some "sec") demoHmac .threw .threw
        (.verifyPayment (some "pay_1") (some "order_abc")
          (some (demoHmac "sec" ("order_abc" ++ "|" ++ "pay_1"))))).1 = some true :=
  (C9_secondary_lookup "rzp_key" "sec" demoHmac .threw "pay_1" "order_abc"
    (by decide) (by decide) (by decide) (by decide) (by decide)).1

/-- C1 (amended): for verify-payment requests with all three fields
present and credentials configured, a signature differing from the
HMAC of orderId|paymentId is always rejected (400, "Invalid payment
signature", no verified:true); a matching signature yields
verified:true exactly when the secondary settlement lookup does not
force a downgrade. -/
theorem C1_verify_signature (keyId keySecret : String)
    (hmac : String → String → String)
    (orderOut : EdgeFn.ProviderOrderOutcome) (lookupOut : EdgeFn.LookupOutcome)
    (p o s : String)
    (hk : keyId ≠ "") (hsec : keySecret ≠ "")
    (hp : p ≠ "") (ho : o ≠ "") (hs : s ≠ "") :
    (EdgeFn.respVerified
        (EdgeFn.serve (some keyId) (some keySecret) hmac orderOut lookupOut
          (.verifyPayment (some p) (some o) (some s))).1 = some true ↔
      (s = hmac keySecret (o ++ "|" ++ p) ∧
       EdgeFn.lookupDowngrades lookupOut = false)) ∧
    (s ≠ hmac keySecret (o ++ "|" ++ p) →
      (EdgeFn.serve (some keyId) (some keySecret) hmac orderOut lookupOut
          (.verifyPayment (some p) (some o) (some s))).1.status = 400 ∧
      EdgeFn.respError
        (EdgeFn.serve (some keyId) (some keySecret) hmac orderOut lookupOut
          (.verifyPayment (some p) (some o) (some s))).1 =
        some EdgeFn.invalidSigMsg) := by
  rw [serve_verify_eq keyId keySecret hmac orderOut lookupOut _ _ _ hk hsec,
      verifyPaymentBranch_eq keySecret hmac lookupOut p o s hp ho hs]
  by_cases hsig : hmac keySecret (o ++ "|" ++ p) = s
  · subst hsig
    by_cases hdown : EdgeFn.lookupDowngrades lookupOut = true
    · simp [hdown, EdgeFn.respVerified, EdgeFn.respError, EdgeFn.mkErr]
    · simp only [Bool.not_eq_true] at hdown
      simp [hdown, EdgeFn.respVerified, EdgeFn.respError, EdgeFn.verifiedResp]
  · have hsig' : s ≠ hmac keySecret (o ++ "|" ++ p) := fun h => hsig h.symm
    simp [hsig, hsig', EdgeFn.respVerified, EdgeFn.respError, EdgeFn.mkErr]

/-- C1 counterexample: a request whose signature equals exactly the
HMAC of orderId|paymentId, with credentials configured, yet the
handler does not answer verified:true — the secondary lookup reported
status "failed", so the response is 400 "Payment not completed
successfully".  This refutes the claimed equivalence. -/
theorem C1_counterexample :
    EdgeFn.respVerified
      (EdgeFn.serve (some "rzp_key") (some "sec") demoHmac .threw (.ok "failed")
        (.verifyPayment (some "pay_1") (some "order_abc")
          (some (demoHmac "sec" ("order_abc" ++ "|" ++ "pay_1"))))).1 ≠ some true ∧
    (EdgeFn.serve (some "rzp_key") (some "sec") demoHmac .threw (.ok "failed")
        (.verifyPayment (some "pay_1") (some "order_abc")
          (some (demoHmac "sec" ("order_abc" ++ "|" ++ "pay_1"))))).1.status = 400 ∧
    EdgeFn.respError
      (EdgeFn.serve (some "rzp_key") (some "sec") demoHmac .threw (.ok "failed")
        (.verifyPayment (some "pay_1") (some "order_abc")
          (some (demoHmac "sec" ("order_abc" ++ "|" ++ "pay_1"))))).1 =
      some EdgeFn.notCompletedMsg := by
  refine ⟨?_, ?_, ?_⟩ <;> decide

/-- C1 witness: with a matching signature and a lookup that reports
status captured, the handler answers verified:true; and a mutated
signature is rejected with 400. -/
theorem C1_verify_signature_witness :
    EdgeFn.respVerified
      (EdgeFn.serve (some "rzp_key") (some "sec") demoHmac .threw (.ok "captured")
        (.verifyPayment (some "pay_1") (some "order_abc")
          (some (demoHmac "sec" ("order_abc" ++ "|" ++ "pay_1"))))).1 = some true ∧
    (EdgeFn.serve (some "rzp_key") (some "sec") demoHmac .threw (.ok "captured")
        (.verifyPayment (some "pay_1") (some "order_abc")
          (some "Xex_sec_order_abc|pay_1"))).1.status = 400 :=
  ⟨(C1_verify_signature "rzp_key" "sec" demoHmac .threw (.ok "captured")
      "pay_1" "order_abc" (demoHmac "sec" ("order_abc" ++ "|" ++ "pay_1"))
      (by decide) (by decide) (by decide) (by decide) (by decide)).1.mpr
      ⟨rfl, by decide⟩,
   ((C1_verify_signature "rzp_key" "sec" demoHmac .threw (.ok "captured")
      "pay_1" "order_abc" "Xex_sec_order_abc|pay_1"
      (by decide) (by decide) (by decide) (by decide) (by decide)).2
      (by decide)).1⟩

/-- C10: isValidPaymentFormat accepts exactly the triples whose
paymentId starts with pay_ or demo_pay_, whose orderId starts with
order_ or demo_order_, and whose signature is longer than 10
characters; consequently, when the backend verification fetch throws,
verifyPaymentWithBackend reports success:true for every such triple
without any cryptographic check. -/
theorem C10_isValidPaymentFormat (p o s : String) :
    (PaymentService.isValidPaymentFormat p o s = true ↔
      ((PaymentService.jsStartsWith p "pay_" = true ∨
        PaymentService.jsStartsWith p "demo_pay_" = true) ∧
       (PaymentService.jsStartsWith o "order_" = true ∨
        PaymentService.jsStartsWith o "demo_order_" = true) ∧
       10 < s.length)) ∧
    (PaymentService.isValidPaymentFormat p o s = true →
      PaymentService.verifyPaymentWithBackend .threw p o s =
        { success := true }) := by
  have hiff : PaymentService.isValidPaymentFormat p o s = true ↔
      ((PaymentService.jsStartsWith p "pay_" = true ∨
        PaymentService.jsStartsWith p "demo_pay_" = true) ∧
       (PaymentService.jsStartsWith o "order_" = true ∨
        PaymentService.jsStartsWith o "demo_order_" = true) ∧
       10 < s.length) := by
    simp [PaymentService.isValidPaymentFormat, Bool.and_eq_true,
          Bool.or_eq_true, decide_eq_true_eq, and_assoc]
  refine ⟨hiff, fun h => ?_⟩
  obtain ⟨hp', ho', hs'⟩ := hiff.mp h
  have hp : p ≠ "" := by
    rcases hp' with h1 | h1 <;> (intro he; subst he; revert h1; decide)
  have ho : o ≠ "" := by
    rcases ho' with h1 | h1 <;> (intro he; subst he; revert h1; decide)
  have hs : s ≠ "" := by
    intro he; subst he; exact absurd hs' (by decide)
  unfold PaymentService.verifyPaymentWithBackend
  rw [if_neg (fun hc => hc.elim hp (fun hc2 => hc2.elim ho hs))]
  simp only [h, if_true]

/-- C10 witness: a concrete well-formatted triple accepted by the
client-side fallback when the backend fetch throws. -/
theorem C10_isValidPaymentFormat_witness :
    PaymentService.verifyPaymentWithBackend .threw
      "pay_x" "order_y" "abcdefghijk" = { success := true } :=
  (C10_isValidPaymentFormat "pay_x" "order_y" "abcdefghijk").2 (by decide)

/-- C3 counterexample: for an invalid amount (0), initiatePayment does
not return a failure tagged with an invalid-amount error — the thrown
validation error is caught by the demo fallback, which resolves with
success:true and no error field. -/
theorem C3_counterexample :
    (PaymentService.initiatePayment demoEnv { amount := 0 }).1.success = true ∧
    (PaymentService.initiatePayment demoEnv { amount := 0 }).1.error = none := by
  refine ⟨?_, ?_⟩ <;> decide

/-- C3 (amended): amounts ≤ 0 short-circuit before any gateway load,
order creation, checkout, or verification request, but the result is
the demo success, not an InvalidAmount failure; amounts above 100000
pass the client-side check, request the gateway load, are rejected
inside createOrder before its fetch, and likewise end in the demo
success with no order/checkout/verification request. -/
theorem C3_invalid_amount (env : PaymentService.ClientEnv)
    (options : PaymentService.PaymentOptions) :
    (options.amount ≤ 0 →
      PaymentService.initiatePayment env options =
        (PaymentService.simulatePayment env.now, {})) ∧
    (100000 < options.amount →
      (PaymentService.initiatePayment env options).1 =
        PaymentService.simulatePayment env.now ∧
      (PaymentService.initiatePayment env options).2.createOrderFetched = false ∧
      (PaymentService.initiatePayment env options).2.checkoutAmount = none ∧
      (PaymentService.initiatePayment env options).2.verifyFetched = false) := by
  constructor
  · intro h
    unfold PaymentService.initiatePayment
    rw [if_pos h]
  · intro h
    have h0 : ¬ options.amount ≤ 0 := not_le.mpr (lt_trans (by norm_num) h)
    have hco : PaymentService.createOrder env.createOrderNet options.amount =
        (Except.error "Failed to create order: Invalid payment amount", false) := by
      unfold PaymentService.createOrder
      rw [if_pos (Or.inr h)]
    unfold PaymentService.initiatePayment
    rw [if_neg h0]
    by_cases hg : env.gatewayLoads = true
    · by_cases hw : env.windowRazorpay = true
      · simp [hg, hw, hco]
      · simp [hg, hw]
    · simp [hg]

/-- C3 witness: a negative amount yields the demo success with an
empty trace; an amount above the cap yields no order-creation fetch. -/
theorem C3_invalid_amount_witness :
    PaymentService.initiatePayment demoEnv { amount := -5 } =
      (PaymentService.simulatePayment 7, {}) ∧
    (PaymentService.initiatePayment demoEnv { amount := 200000 }).2.createOrderFetched
      = false :=
  ⟨(C3_invalid_amount demoEnv { amount := -5 }).1 (by norm_num),
   ((C3_invalid_amount demoEnv { amount := 200000 }).2 (by norm_num)).2.1⟩

theorem initiatePayment_cases (env : PaymentService.ClientEnv)
    (options : PaymentService.PaymentOptions) :
    (PaymentService.initiatePayment env options).1.success = true ∨
    (PaymentService.initiatePayment env options).1.error ≠ none := by
  unfold PaymentService.initiatePayment
  split
  · left; rfl
  · split
    · left; rfl
    · split
      · left; rfl
      · split
        · left; rfl
        · unfold PaymentService.checkoutPhase
          split
          · left; rfl
          · right; simp
          · right; simp
          · simp only []
            split
            · left; rfl
            · right; simp

theorem initiatePayment_failure_error (env : PaymentService.ClientEnv)
    (options : PaymentService.PaymentOptions)
    (h : (PaymentService.initiatePayment env options).1.success = false) :
    (PaymentService.initiatePayment env options).1.error ≠ none := by
  rcases initiatePayment_cases env options with hs | he
  · rw [h] at hs; exact Bool.noConfusion hs
  · exact he

/-- C6 counterexample: with a valid amount and an internal exception
(the create-order fetch rejects), initiatePayment resolves with
success:true — the exception path ends in the demo fallback, not in a
success:false result. -/
theorem C6_counterexample :
    (PaymentService.initiatePayment demoEnv { amount := 50 }).1.success = true := by
  decide

/-- C6 (amended): the public client operations never reject — in the
embedding they are total functions into PaymentResult — and every
success:false result carries an error string; but an internal
exception in initiatePayment (for example a rejected create-order
fetch) resolves to the demo fallback with success:true rather than to
a success:false result. -/
theorem C6_never_throws (env : PaymentService.ClientEnv)
    (options : PaymentService.PaymentOptions) (key : String) (msg : String) :
    ((PaymentService.initiatePayment env options).1.success = false →
      (PaymentService.initiatePayment env options).1.error ≠ none) ∧
    ((PaymentService.buyCoinPackage env key).1.success = false →
      (PaymentService.buyCoinPackage env key).1.error ≠ none) ∧
    ((PaymentService.subscribeToPremium env key).1.success = false →
      (PaymentService.subscribeToPremium env key).1.error ≠ none) ∧
    ((PaymentService.subscribeToUnlimitedCalls env).1.success = false →
      (PaymentService.subscribeToUnlimitedCalls env).1.error ≠ none) ∧
    (env.createOrderNet = .threw msg →
      (PaymentService.initiatePayment env options).1 =
        PaymentService.simulatePayment env.now) := by
  refine ⟨initiatePayment_failure_error env options, ?_, ?_, ?_, ?_⟩
  · unfold PaymentService.buyCoinPackage
    cases hK : PaymentService.COIN_PACKAGES key with
    | none => simp
    | some p => exact initiatePayment_failure_error env _
  · unfold PaymentService.subscribeToPremium
    cases hK : PaymentService.PREMIUM_PLANS key with
    | none => simp
    | some plan => exact initiatePayment_failure_error env _
  · unfold PaymentService.subscribeToUnlimitedCalls
    exact initiatePayment_failure_error env _
  · intro hnet
    have hco : ∀ f r, PaymentService.createOrder env.createOrderNet options.amount = (r, f) →
        ∃ e, r = Except.error e := by
      intro f r hr
      unfold PaymentService.createOrder at hr
      rw [hnet] at hr
      by_cases hv : options.amount ≤ 0 ∨ options.amount > 100000
      · rw [if_pos hv] at hr
        injection hr with h1 h2
        exact ⟨_, h1.symm⟩
      · rw [if_neg hv] at hr
        injection hr with h1 h2
        exact ⟨_, h1.symm⟩
    unfold PaymentService.initiatePayment
    by_cases h0 : options.amount ≤ 0
    · rw [if_pos h0]
    · rw [if_neg h0]
      by_cases hg : env.gatewayLoads = true
      · by_cases hw : env.windowRazorpay = true
        · simp only [hg, hw]
          rcases hp : PaymentService.createOrder env.createOrderNet options.amount
            with ⟨r, f⟩
          obtain ⟨e, he⟩ := hco f r hp
          subst he
          simp
        · simp [hg, hw]
      · simp [hg]

/-- C6 witness: concrete environment whose create-order fetch rejects;
the result is the demo fallback. -/
theorem C6_never_throws_witness :
    (PaymentService.initiatePayment demoEnv { amount := 50 }).1 =
      PaymentService.simulatePayment 7 :=
  (C6_never_throws demoEnv { amount := 50 } "small" "network down").2.2.2.2 rfl

/-- C2: when the gateway script fails to load, initiatePayment resolves
with success:true via the demo fallback although no backend
verification request was ever issued; the PaymentResult it returns has
the exact shape of a real payment (no tag field distinguishes it
beyond the synthesized demo-prefixed ids). -/
theorem C2_demo_success_unverified :
    (PaymentService.initiatePayment gatewayDownEnv { amount := 29 }).1 =
      { success := true,
        paymentId := some "demo_pay_42",
        orderId := some "demo_order_42",
        signature := some "demo_signature_42" } ∧
    (PaymentService.initiatePayment gatewayDownEnv { amount := 29 }).2.verifyFetched
      = false ∧
    (PaymentService.initiatePayment gatewayDownEnv { amount := 29 }).2.createOrderFetched
      = false := by
  refine ⟨?_, ?_, ?_⟩ <;> decide

theorem createOrder_ok_amount (net : PaymentService.CreateOrderNet) (a : ℚ)
    (order : PaymentService.ClientOrder) (f : Bool)
    (h : PaymentService.createOrder net a = (Except.ok order, f)) :
    order.amount = a * 100 := by
  unfold PaymentService.createOrder at h
  by_cases hv : a ≤ 0 ∨ a > 100000
  · rw [if_pos hv] at h
    injection h with h1 h2
    exact Except.noConfusion h1
  · rw [if_neg hv] at h
    cases net with
    | threw msg =>
        injection h with h1 h2
        exact Except.noConfusion h1
    | respNotOk e =>
        injection h with h1 h2
        exact Except.noConfusion h1
    | ok body =>
        by_cases hs : body.success = true
        · simp only [hs, if_true] at h
          injection h with h1 h2
          injection h1 with h1
          rw [← h1]
        · simp only [Bool.not_eq_true] at hs
          simp only [hs] at h
          injection h with h1 h2
          exact Except.noConfusion h1

/-- C4 (amended): whenever the checkout widget is opened, the amount
handed to it is 100 × the client-supplied amount, recomputed
client-side inside createOrder's return value; the amount field of the
backend's create-order response plays no part in it (the theorem holds
for every backend response in the environment). -/
theorem C4_checkout_amount (env : PaymentService.ClientEnv)
    (options : PaymentService.PaymentOptions) (q : ℚ)
    (h : (PaymentService.initiatePayment env options).2.checkoutAmount = some q) :
    q = 100 * options.amount := by
  unfold PaymentService.initiatePayment at h
  by_cases h0 : options.amount ≤ 0
  · rw [if_pos h0] at h
    exact Option.noConfusion h
  · rw [if_neg h0] at h
    by_cases hg : env.gatewayLoads = true
    · by_cases hw : env.windowRazorpay = true
      · rw [if_neg (not_not_intro hg), if_neg (not_not_intro hw)] at h
        rcases hp : PaymentService.createOrder env.createOrderNet options.amount
          with ⟨r, f⟩
        rw [hp] at h
        cases r with
        | error e => exact Option.noConfusion h
        | ok order =>
            have hamt : order.amount = options.amount * 100 :=
              createOrder_ok_amount env.createOrderNet options.amount order f hp
            unfold PaymentService.checkoutPhase at h
            cases hc : env.checkout with
            | constructorThrew =>
                rw [hc] at h
                exact Option.noConfusion h
            | dismissed =>
                rw [hc] at h
                injection h with h1
                rw [← h1, hamt, mul_comm]
            | failed d =>
                rw [hc] at h
                injection h with h1
                rw [← h1, hamt, mul_comm]
            | handlerSuccess p o s =>
                rw [hc] at h
                simp only [] at h
                by_cases hv : (PaymentService.verifyPaymentWithBackend
                    env.verifyNet p o s).success = true
                · simp only [hv, if_true] at h
                  injection h with h1
                  rw [← h1, hamt, mul_comm]
                · simp only [Bool.not_eq_true] at hv
                  simp only [hv] at h
                  injection h with h1
                  rw [← h1, hamt, mul_comm]
      · rw [if_neg (not_not_intro hg), if_pos hw] at h
        exact Option.noConfusion h
    · rw [if_pos hg] at h
      exact Option.noConfusion h

/-- C4 counterexample: with amount 10.004 the backend (provider echoing
the rounded paise amount 1000) returns amount 10 from create-order,
but the client opens the checkout with 1000.4, which is not 100 × 10 —
the checkout amount is recomputed client-side from the input, not
taken from the created order. -/
theorem C4_counterexample :
    (EdgeFn.serve (some "rzp_key") (some "sec") demoHmac
        (.ok { id := "order_abc", amount := 1000, currency := "INR", receipt := "r1" })
        .threw (.createOrder (some (10004/1000)) (some "INR") (some "r1"))).1.body =
      some { success := true, orderId := some "order_abc", amount := some 10,
             currency := some "INR", receipt := some "r1" } ∧
    (PaymentService.initiatePayment (okOrderEnv 10)
        { amount := 10004/1000 }).2.checkoutAmount = some (10004/10) ∧
    (10004 : ℚ)/10 ≠ 100 * 10 := by
  refine ⟨?_, ?_, ?_⟩
  · norm_num [EdgeFn.serve, EdgeFn.createOrderBranch, EdgeFn.strFalsy]
    rw [if_neg (by decide : ¬(("rzp_key" : String) = "" ∨ ("sec" : String) = ""))]
  · norm_num [PaymentService.initiatePayment, PaymentService.createOrder,
              PaymentService.checkoutPhase, okOrderEnv]
  · norm_num

/-- C4 witness: for an integral amount the checkout amount is exactly
100 × the input amount. -/
theorem C4_checkout_amount_witness :
    (29900 : ℚ) = 100 * 299 :=
  C4_checkout_amount (okOrderEnv 299) { amount := 299 } 29900
    (by norm_num [PaymentService.initiatePayment, PaymentService.createOrder,
                  PaymentService.checkoutPhase, okOrderEnv])

theorem loadCall_pending (s : Loader.LoaderState) (id : Nat)
    (hload : s.isRazorpayLoaded = false) (hpend : s.loadingPromise = some id) :
    Loader.loadCall s = (s, .awaits id) := by
  unfold Loader.loadCall
  rw [hload, hpend]
  rfl

theorem loadCallsN_pending (n : Nat) (s : Loader.LoaderState) (id : Nat)
    (hload : s.isRazorpayLoaded = false) (hpend : s.loadingPromise = some id) :
    Loader.loadCallsN s n = (s, List.replicate n (.awaits id)) := by
  induction n with
  | zero => rfl
  | succ k ih =>
      unfold Loader.loadCallsN
      rw [loadCall_pending s id hload hpend]
      simp only [ih, List.replicate_succ]

/-- C8: starting from a fresh loader state (not loaded, nothing in
flight, window handle absent), any number of loadRazorpay calls with
no intervening load/error event inject exactly one script element and
all callers await the same promise; the in-flight handle is set by the
first (atomic, pre-await) call and is never cleared by a further call;
the error/timeout event clears it, removes the script and resolves the
one shared promise false, after which a retry injects a fresh script
on a fresh promise; the load event resolves the same shared promise
true. -/
theorem C8_single_flight (s0 : Loader.LoaderState) (n : Nat)
    (hload : s0.isRazorpayLoaded = false) (hpend : s0.loadingPromise = none)
    (hwin : s0.windowRazorpay = false) :
    (Loader.loadCallsN s0 (n + 1)).1.scriptCount = s0.scriptCount + 1 ∧
    (Loader.loadCallsN s0 (n + 1)).2 =
      List.replicate (n + 1) (.awaits s0.nextPromiseId) ∧
    (Loader.loadCallsN s0 (n + 1)).1.loadingPromise = some s0.nextPromiseId ∧
    (∀ s : Loader.LoaderState, ∀ id : Nat, s.loadingPromise = some id →
      (Loader.loadCall s).1.loadingPromise = some id) ∧
    (Loader.onerrorEvent (Loader.loadCallsN s0 (n + 1)).1).loadingPromise = none ∧
    (Loader.onerrorEvent (Loader.loadCallsN s0 (n + 1)).1).scriptCount
      = s0.scriptCount ∧
    (Loader.onerrorEvent (Loader.loadCallsN s0 (n + 1)).1).resolutions
      = (s0.nextPromiseId, false) :: s0.resolutions ∧
    (Loader.loadCall (Loader.onerrorEvent (Loader.loadCallsN s0 (n + 1)).1)).1.scriptCount
      = s0.scriptCount + 1 ∧
    (Loader.loadCall (Loader.onerrorEvent (Loader.loadCallsN s0 (n + 1)).1)).2
      = .awaits (s0.nextPromiseId + 1) ∧
    (Loader.onloadEvent (Loader.loadCallsN s0 (n + 1)).1).resolutions
      = (s0.nextPromiseId, true) :: s0.resolutions ∧
    (Loader.onloadEvent (Loader.loadCallsN s0 (n + 1)).1).isRazorpayLoaded = true := by
  have h1 : Loader.loadCall s0 =
      ({ s0 with loadingPromise := some s0.nextPromiseId,
                 nextPromiseId := s0.nextPromiseId + 1,
                 scriptCount := s0.scriptCount + 1 },
       .awaits s0.nextPromiseId) := by
    unfold Loader.loadCall
    rw [hload, hpend, hwin]
    rfl
  have hN : Loader.loadCallsN s0 (n + 1) =
      ({ s0 with loadingPromise := some s0.nextPromiseId,
                 nextPromiseId := s0.nextPromiseId + 1,
                 scriptCount := s0.scriptCount + 1 },
       List.replicate (n + 1) (.awaits s0.nextPromiseId)) := by
    unfold Loader.loadCallsN
    rw [h1]
    simp only [loadCallsN_pending n
        ({ s0 with loadingPromise := some s0.nextPromiseId,
                   nextPromiseId := s0.nextPromiseId + 1,
                   scriptCount := s0.scriptCount + 1 }) s0.nextPromiseId hload rfl,
      List.replicate_succ]
  rw [hN]
  refine ⟨rfl, rfl, rfl, ?_, ?_, ?_, ?_, ?_, ?_, ?_, ?_⟩
  · intro s id hp
    unfold Loader.loadCall
    by_cases hl : s.isRazorpayLoaded = true
    · rw [hl]
      exact hp
    · simp only [Bool.not_eq_true] at hl
      rw [hl, hp]
      exact hp
  · unfold Loader.onerrorEvent
    rfl
  · unfold Loader.onerrorEvent
    simp
  · unfold Loader.onerrorEvent
    rfl
  · unfold Loader.loadCall Loader.onerrorEvent
    simp [hload, hwin]
  · unfold Loader.loadCall Loader.onerrorEvent
    simp [hload, hwin]
  · unfold Loader.onloadEvent
    rfl
  · unfold Loader.onloadEvent
    rfl

/-- C8 witness: two concurrent calls from the empty fresh state inject
one script and both await promise 0. -/
theorem C8_single_flight_witness :
    (Loader.loadCallsN ⟨false, none, 0, false, 0, []⟩ 2).1.scriptCount = 0 + 1 ∧
    (Loader.loadCallsN ⟨false, none, 0, false, 0, []⟩ 2).2 =
      List.replicate 2 (.awaits 0) :=
  ⟨(C8_single_flight ⟨false, none, 0, false, 0, []⟩ 1 rfl rfl rfl).1,
   (C8_single_flight ⟨false, none, 0, false, 0, []⟩ 1 rfl rfl rfl).2.1⟩
